import Mathlib

/-!
Verification of the stock-screener backend's core algorithmic logic:
`backend/src/utils/scoring.ts` (StockScorer) and
`backend/src/utils/technical.ts` (TechnicalAnalyzer).

Numbers are modelled by exact rationals (ℚ).  All scoring adjustments in the
source are integer constants added to an integer baseline, so category scores
are embedded in ℤ; the fractional weights of the overall score and the
indicator arithmetic live in ℚ.  `Math.sqrt` (used only by the Bollinger
bands) is modelled by `Real.sqrt`.  `Math.round` is `⌊x + 1/2⌋`, which is
exactly JavaScript's rounding rule on the reals.

Human-readable `message` strings built with `toFixed` number formatting are
presentation-only and are omitted from the `Signal` record; the static
`summary` strings of recommendations are kept.
-/

/-- JavaScript `Math.round`: round half toward positive infinity. -/
def jsRound (x : ℚ) : ℤ := ⌊x + 1/2⌋

/-- Fundamentals snapshot (`backend/src/types/index.ts`, `StockSnapshot`).
Every numeric field is `number | null` in the source; `symbol` and
`snapshot_date` are identification strings never read by the scorer and are
omitted. -/
structure StockSnapshot where
  roe : Option ℚ := none
  roic : Option ℚ := none
  gross_margin : Option ℚ := none
  operating_margin : Option ℚ := none
  debt_to_equity : Option ℚ := none
  current_ratio : Option ℚ := none
  free_cash_flow : Option ℚ := none
  revenue_cagr_5y : Option ℚ := none
  eps_cagr_5y : Option ℚ := none
  pe : Option ℚ := none
  peg : Option ℚ := none
  fcf_yield : Option ℚ := none
  price : Option ℚ := none
  market_cap : Option ℚ := none
deriving Repr, DecidableEq

/-- Technical indicator set (`technical.ts`, `TechnicalIndicators`):
every field is `number | null`. -/
structure TechnicalIndicators where
  rsi_14 : Option ℚ := none
  macd : Option ℚ := none
  macd_signal : Option ℚ := none
  macd_histogram : Option ℚ := none
  sma_20 : Option ℚ := none
  sma_50 : Option ℚ := none
  sma_200 : Option ℚ := none
  ema_20 : Option ℚ := none
  ema_50 : Option ℚ := none
  bollinger_upper : Option ℚ := none
  bollinger_middle : Option ℚ := none
  bollinger_lower : Option ℚ := none
  atr_14 : Option ℚ := none
  price_change_1d : Option ℚ := none
  price_change_5d : Option ℚ := none
  price_change_20d : Option ℚ := none
  volume_ratio : Option ℚ := none
deriving Repr, DecidableEq

/-- Score breakdown (`scoring.ts`, `ScoreBreakdown`).  The source stores
`Math.round`ed numbers, hence ℤ fields. -/
structure ScoreBreakdown where
  valuation : ℤ
  quality : ℤ
  growth : ℤ
  momentum : ℤ
  overall : ℤ
deriving Repr, DecidableEq

/-! ### Category scores (`scoring.ts` lines 53–208)

Each category starts at 50 and mutates the score by integer constants per
available metric, then clamps with `Math.max(0, Math.min(100, score))`.
Each `if`-chain below transcribes one such block, as the total adjustment it
contributes. -/

/-- P/E adjustment inside `getValuationScore`. -/
def peAdj : Option ℚ → ℤ
  | none => 0
  | some pe =>
    if pe < 0 then -10
    else if pe < 10 then 15
    else if pe < 15 then 10
    else if pe < 20 then 5
    else if pe < 30 then -5
    else -10

/-- PEG adjustment inside `getValuationScore`. -/
def pegAdj : Option ℚ → ℤ
  | none => 0
  | some peg =>
    if peg < 0 then -5
    else if peg < 1 then 15
    else if peg < 1.5 then 10
    else if peg < 2 then 5
    else if peg > 3 then -10
    else 0

/-- FCF-yield adjustment inside `getValuationScore` (threshold on the
percentage value `fcf_yield * 100`). -/
def fcfYieldAdj : Option ℚ → ℤ
  | none => 0
  | some fy =>
    let fcfYieldPct := fy * 100
    if fcfYieldPct > 10 then 15
    else if fcfYieldPct > 5 then 10
    else if fcfYieldPct > 3 then 5
    else if fcfYieldPct < 0 then -10
    else 0

/-- `StockScorer.getValuationScore`. -/
def getValuationScore (s : StockSnapshot) : ℤ :=
  max 0 (min 100 (50 + peAdj s.pe + pegAdj s.peg + fcfYieldAdj s.fcf_yield))

/-- ROE adjustment inside `getQualityScore` (on `roe * 100`). -/
def roeAdj : Option ℚ → ℤ
  | none => 0
  | some roe =>
    let roePct := roe * 100
    if roePct > 25 then 15
    else if roePct > 15 then 10
    else if roePct > 10 then 5
    else if roePct < 0 then -15
    else if roePct < 5 then -5
    else 0

/-- Operating-margin adjustment inside `getQualityScore`. -/
def operatingMarginAdj : Option ℚ → ℤ
  | none => 0
  | some om =>
    let margin := om * 100
    if margin > 25 then 10
    else if margin > 15 then 5
    else if margin < 0 then -10
    else if margin < 5 then -5
    else 0

/-- Gross-margin adjustment inside `getQualityScore`. -/
def grossMarginAdj : Option ℚ → ℤ
  | none => 0
  | some gm =>
    let margin := gm * 100
    if margin > 50 then 10
    else if margin > 30 then 5
    else if margin < 20 then -5
    else 0

/-- Debt-to-equity adjustment inside `getQualityScore`. -/
def debtToEquityAdj : Option ℚ → ℤ
  | none => 0
  | some dte =>
    if dte < 0.3 then 15
    else if dte < 0.5 then 10
    else if dte < 1 then 5
    else if dte > 2 then -10
    else if dte > 1.5 then -5
    else 0

/-- Current-ratio adjustment inside `getQualityScore`. -/
def currentRatioAdj : Option ℚ → ℤ
  | none => 0
  | some cr =>
    if cr ≥ 2 then 10
    else if cr ≥ 1.5 then 5
    else if cr < 1 then -10
    else if cr < 1.2 then -5
    else 0

/-- `StockScorer.getQualityScore`. -/
def getQualityScore (s : StockSnapshot) : ℤ :=
  max 0 (min 100 (50 + roeAdj s.roe + operatingMarginAdj s.operating_margin +
    grossMarginAdj s.gross_margin + debtToEquityAdj s.debt_to_equity +
    currentRatioAdj s.current_ratio))

/-- Revenue-CAGR adjustment inside `getGrowthScore` (on `cagr * 100`). -/
def revenueCagrAdj : Option ℚ → ℤ
  | none => 0
  | some rc =>
    let cagr := rc * 100
    if cagr > 20 then 20
    else if cagr > 15 then 15
    else if cagr > 10 then 10
    else if cagr > 5 then 5
    else if cagr < 0 then -15
    else if cagr < 5 then -5
    else 0

/-- EPS-CAGR adjustment inside `getGrowthScore` (no `< 5` band, unlike
revenue). -/
def epsCagrAdj : Option ℚ → ℤ
  | none => 0
  | some ec =>
    let cagr := ec * 100
    if cagr > 20 then 20
    else if cagr > 15 then 15
    else if cagr > 10 then 10
    else if cagr > 5 then 5
    else if cagr < 0 then -15
    else 0

/-- `StockScorer.getGrowthScore`: short-circuits to 50 when neither CAGR
field is present (`hasData` flag in the source). -/
def getGrowthScore (s : StockSnapshot) : ℤ :=
  let hasData := s.revenue_cagr_5y.isSome || s.eps_cagr_5y.isSome
  if hasData then
    max 0 (min 100 (50 + revenueCagrAdj s.revenue_cagr_5y + epsCagrAdj s.eps_cagr_5y))
  else 50

/-- RSI adjustment inside `getMomentumScore`. -/
def rsiAdj : Option ℚ → ℤ
  | none => 0
  | some r =>
    if 40 ≤ r ∧ r ≤ 60 then 10
    else if 30 ≤ r ∧ r ≤ 70 then 5
    else if r < 30 then 5
    else if r > 70 then -5
    else 0

/-- MACD-histogram adjustment inside `getMomentumScore`. -/
def macdHistogramAdj : Option ℚ → ℤ
  | none => 0
  | some h => if h > 0 then 10 else -5

/-- 20-day price-change adjustment inside `getMomentumScore`. -/
def priceChange20dAdj : Option ℚ → ℤ
  | none => 0
  | some pc =>
    if pc > 5 then 5
    else if pc < -5 then -5
    else 0

/-- Volume-ratio adjustment inside `getMomentumScore`. -/
def volumeRatioAdj : Option ℚ → ℤ
  | none => 0
  | some vr => if vr > 1.5 then 5 else 0

/-- `StockScorer.getMomentumScore`. -/
def getMomentumScore (t : TechnicalIndicators) : ℤ :=
  max 0 (min 100 (50 + rsiAdj t.rsi_14 + macdHistogramAdj t.macd_histogram +
    priceChange20dAdj t.price_change_20d + volumeRatioAdj t.volume_ratio))

/-- `StockScorer.calculateScores` (`scoring.ts` lines 25–48): the four
category scores, a weighted overall in ℚ, and `Math.round` on each returned
field. -/
def calculateScores (snapshot : StockSnapshot)
    (technicals : Option TechnicalIndicators) : ScoreBreakdown :=
  let valuation := getValuationScore snapshot
  let quality := getQualityScore snapshot
  let growth := getGrowthScore snapshot
  let momentum := match technicals with
    | some t => getMomentumScore t
    | none => 50
  let overall : ℚ :=
    (valuation : ℚ) * 0.25 + (quality : ℚ) * 0.30 +
    (growth : ℚ) * 0.25 + (momentum : ℚ) * 0.20
  { valuation := jsRound (valuation : ℚ)
    quality := jsRound (quality : ℚ)
    growth := jsRound (growth : ℚ)
    momentum := jsRound (momentum : ℚ)
    overall := jsRound overall }

/-! ### Basic lemmas about rounding and the category scores -/

theorem jsRound_intCast (k : ℤ) : jsRound (k : ℚ) = k := by
  unfold jsRound
  rw [add_comm, Int.floor_add_int]
  norm_num

theorem jsRound_nonneg {x : ℚ} (hx : 0 ≤ x) : 0 ≤ jsRound x := by
  unfold jsRound
  rw [Int.le_floor]
  push_cast
  linarith

theorem jsRound_le_hundred {x : ℚ} (hx : x ≤ 100) : jsRound x ≤ 100 := by
  unfold jsRound
  have h1 : ⌊x + 1/2⌋ < 101 := Int.floor_lt.mpr (by push_cast; linarith)
  omega

theorem jsRound_fifty : jsRound (50 : ℚ) = 50 := by
  simpa using jsRound_intCast 50

theorem getValuationScore_bounds (s : StockSnapshot) :
    0 ≤ getValuationScore s ∧ getValuationScore s ≤ 100 := by
  unfold getValuationScore
  omega

theorem getQualityScore_bounds (s : StockSnapshot) :
    0 ≤ getQualityScore s ∧ getQualityScore s ≤ 100 := by
  unfold getQualityScore
  omega

theorem getGrowthScore_bounds (s : StockSnapshot) :
    0 ≤ getGrowthScore s ∧ getGrowthScore s ≤ 100 := by
  unfold getGrowthScore
  dsimp only
  split <;> omega

theorem getMomentumScore_bounds (t : TechnicalIndicators) :
    0 ≤ getMomentumScore t ∧ getMomentumScore t ≤ 100 := by
  unfold getMomentumScore
  omega

/-! ### Signal generation (`scoring.ts` lines 213–326)

Each rule appends at most one signal; emission order follows the source.
The `message` field interpolates numbers with `toFixed` and is
presentation-only, so it is omitted here. -/

inductive SignalType where
  | bullish
  | bearish
  | neutral
deriving Repr, DecidableEq, BEq

structure Signal where
  type : SignalType
  indicator : String
  strength : ℤ
deriving Repr, DecidableEq

/-- RSI rule of `generateSignals` (on `technicals?.rsi_14`). -/
def rsiSignals : Option ℚ → List Signal
  | none => []
  | some r =>
    if r < 30 then [⟨.bullish, "RSI", if r < 20 then 3 else 2⟩]
    else if r > 70 then [⟨.bearish, "RSI", if r > 80 then 3 else 2⟩]
    else []

/-- MACD rule of `generateSignals` (on `technicals?.macd_histogram`). -/
def macdSignals : Option ℚ → List Signal
  | none => []
  | some h =>
    if h > 0 then [⟨.bullish, "MACD", 2⟩]
    else [⟨.bearish, "MACD", 2⟩]

/-- Valuation rule of `generateSignals` (on `snapshot.pe`). -/
def valuationSignals : Option ℚ → List Signal
  | none => []
  | some pe =>
    if pe > 0 ∧ pe < 15 then [⟨.bullish, "Valuation", if pe < 10 then 3 else 2⟩]
    else []

/-- Quality rule of `generateSignals` (on `snapshot.roe`). -/
def qualitySignals : Option ℚ → List Signal
  | none => []
  | some roe =>
    if roe > 0.20 then [⟨.bullish, "Quality", if roe > 0.30 then 3 else 2⟩]
    else []

/-- Debt rule of `generateSignals` (on `snapshot.debt_to_equity`). -/
def debtSignals : Option ℚ → List Signal
  | none => []
  | some dte =>
    if dte < 0.3 then [⟨.bullish, "Balance Sheet", 2⟩]
    else if dte > 2 then [⟨.bearish, "Balance Sheet", if dte > 3 then 3 else 2⟩]
    else []

/-- Growth rule of `generateSignals` (on `snapshot.revenue_cagr_5y`). -/
def growthSignals : Option ℚ → List Signal
  | none => []
  | some rc =>
    if rc > 0.15 then [⟨.bullish, "Growth", if rc > 0.25 then 3 else 2⟩]
    else []

/-- Momentum rule of `generateSignals` (on `technicals?.price_change_20d`). -/
def momentumSignals : Option ℚ → List Signal
  | none => []
  | some pc =>
    if pc > 10 then [⟨.bullish, "Momentum", 2⟩]
    else if pc < -10 then [⟨.bearish, "Momentum", 2⟩]
    else []

/-- `StockScorer.generateSignals`: the seven rules in source order.
`technicals?.field` optional chaining becomes `Option.bind`. -/
def generateSignals (snapshot : StockSnapshot)
    (technicals : Option TechnicalIndicators) : List Signal :=
  rsiSignals (technicals.bind fun t => t.rsi_14) ++
  macdSignals (technicals.bind fun t => t.macd_histogram) ++
  valuationSignals snapshot.pe ++
  qualitySignals snapshot.roe ++
  debtSignals snapshot.debt_to_equity ++
  growthSignals snapshot.revenue_cagr_5y ++
  momentumSignals (technicals.bind fun t => t.price_change_20d)

/-! ### Recommendation (`scoring.ts` lines 331–374) -/

inductive Rating where
  | strongBuy
  | buy
  | hold
  | sell
  | strongSell
deriving Repr, DecidableEq

structure Recommendation where
  rating : Rating
  confidence : ℤ
  summary : String
deriving Repr, DecidableEq

/-- `bullishSignals − bearishSignals` as computed in `getRecommendation`. -/
def signalScore (signals : List Signal) : ℤ :=
  ((signals.filter fun s => s.type == SignalType.bullish).length : ℤ) -
  ((signals.filter fun s => s.type == SignalType.bearish).length : ℤ)

/-- `StockScorer.getRecommendation`: ordered rating cascade, then confidence
`min(100, (dataPoints/4)*50 + |signalScore|*10 + 30)` rounded. -/
def getRecommendation (scores : ScoreBreakdown) (signals : List Signal) :
    Recommendation :=
  let ss := signalScore signals
  let rs : Rating × String :=
    if scores.overall ≥ 70 ∧ ss ≥ 2 then
      (.strongBuy, "Excellent fundamentals with bullish technical signals")
    else if scores.overall ≥ 60 ∧ ss ≥ 0 then
      (.buy, "Good fundamentals, favorable technical setup")
    else if scores.overall ≥ 40 ∧ scores.overall < 60 then
      (.hold, "Mixed signals, monitor for changes")
    else if scores.overall < 40 ∧ ss ≤ 0 then
      (.sell, "Weak fundamentals with bearish signals")
    else if scores.overall < 30 ∧ ss < -1 then
      (.strongSell, "Poor fundamentals and bearish momentum")
    else
      (.hold, "Neutral outlook")
  let dataPoints : ℕ :=
    ([scores.valuation != 50, scores.quality != 50,
      scores.growth != 50, scores.momentum != 50].filter id).length
  let confidence : ℚ :=
    min 100 ((dataPoints : ℚ) / 4 * 50 + |(ss : ℚ)| * 10 + 30)
  { rating := rs.1, confidence := jsRound confidence, summary := rs.2 }

/-! ### Claims about the scorer -/

theorem weighted_overall_bounds {v q g m : ℤ}
    (hv0 : 0 ≤ v) (hv1 : v ≤ 100) (hq0 : 0 ≤ q) (hq1 : q ≤ 100)
    (hg0 : 0 ≤ g) (hg1 : g ≤ 100) (hm0 : 0 ≤ m) (hm1 : m ≤ 100) :
    0 ≤ jsRound ((v : ℚ) * 0.25 + (q : ℚ) * 0.30 + (g : ℚ) * 0.25 + (m : ℚ) * 0.20) ∧
    jsRound ((v : ℚ) * 0.25 + (q : ℚ) * 0.30 + (g : ℚ) * 0.25 + (m : ℚ) * 0.20) ≤ 100 := by
  have Hv0 : (0 : ℚ) ≤ (v : ℚ) := by exact_mod_cast hv0
  have Hv1 : (v : ℚ) ≤ 100 := by exact_mod_cast hv1
  have Hq0 : (0 : ℚ) ≤ (q : ℚ) := by exact_mod_cast hq0
  have Hq1 : (q : ℚ) ≤ 100 := by exact_mod_cast hq1
  have Hg0 : (0 : ℚ) ≤ (g : ℚ) := by exact_mod_cast hg0
  have Hg1 : (g : ℚ) ≤ 100 := by exact_mod_cast hg1
  have Hm0 : (0 : ℚ) ≤ (m : ℚ) := by exact_mod_cast hm0
  have Hm1 : (m : ℚ) ≤ 100 := by exact_mod_cast hm1
  constructor
  · exact jsRound_nonneg (by nlinarith)
  · exact jsRound_le_hundred (by nlinarith)

/-- C1: for every fundamentals snapshot and optional indicator set, the
`overall` field of the `ScoreBreakdown` returned by `calculateScores` equals
`round(valuation*0.25 + quality*0.30 + growth*0.25 + momentum*0.20)`
recomputed from the four returned, rounded category values of that same
breakdown. -/
theorem calculateScores_overall_recomputed (s : StockSnapshot)
    (t : Option TechnicalIndicators) :
    (calculateScores s t).overall =
      jsRound (((calculateScores s t).valuation : ℚ) * 0.25 +
        ((calculateScores s t).quality : ℚ) * 0.30 +
        ((calculateScores s t).growth : ℚ) * 0.25 +
        ((calculateScores s t).momentum : ℚ) * 0.20) := by
  cases t with
  | none => simp only [calculateScores, jsRound_intCast, jsRound_fifty]; norm_num
  | some tech => simp only [calculateScores, jsRound_intCast]

/-- C2: for every fundamentals snapshot and optional indicator set, all five
fields of the `ScoreBreakdown` returned by `calculateScores` lie in `[0,100]`
(they are integers by the ℤ-valued embedding of `Math.round`). -/
theorem calculateScores_fields_in_range (s : StockSnapshot)
    (t : Option TechnicalIndicators) :
    0 ≤ (calculateScores s t).valuation ∧ (calculateScores s t).valuation ≤ 100 ∧
    0 ≤ (calculateScores s t).quality ∧ (calculateScores s t).quality ≤ 100 ∧
    0 ≤ (calculateScores s t).growth ∧ (calculateScores s t).growth ≤ 100 ∧
    0 ≤ (calculateScores s t).momentum ∧ (calculateScores s t).momentum ≤ 100 ∧
    0 ≤ (calculateScores s t).overall ∧ (calculateScores s t).overall ≤ 100 := by
  obtain ⟨hv0, hv1⟩ := getValuationScore_bounds s
  obtain ⟨hq0, hq1⟩ := getQualityScore_bounds s
  obtain ⟨hg0, hg1⟩ := getGrowthScore_bounds s
  cases t with
  | none =>
    simp only [calculateScores, jsRound_intCast]
    obtain ⟨ho0, ho1⟩ := weighted_overall_bounds hv0 hv1 hq0 hq1 hg0 hg1
      (by norm_num : (0:ℤ) ≤ 50) (by norm_num : (50:ℤ) ≤ 100)
    exact ⟨hv0, hv1, hq0, hq1, hg0, hg1, by simp [jsRound_fifty],
      by simp [jsRound_fifty], ho0, ho1⟩
  | some tech =>
    obtain ⟨hm0, hm1⟩ := getMomentumScore_bounds tech
    simp only [calculateScores, jsRound_intCast]
    obtain ⟨ho0, ho1⟩ := weighted_overall_bounds hv0 hv1 hq0 hq1 hg0 hg1 hm0 hm1
    exact ⟨hv0, hv1, hq0, hq1, hg0, hg1, hm0, hm1, ho0, ho1⟩

/-- C3: for every `ScoreBreakdown` and signal list, `getRecommendation`
decides the rating by the ordered first-match cascade on `overall` and
`signalScore = count(bullish) − count(bearish)`: (1) overall ≥ 70 ∧ ss ≥ 2 →
Strong Buy; (2) overall ≥ 60 ∧ ss ≥ 0 → Buy; (3) 40 ≤ overall < 60 → Hold;
(4) overall < 40 ∧ ss ≤ 0 → Sell; (5) overall < 30 ∧ ss < −1 → Strong Sell;
(6) otherwise Hold. -/
theorem getRecommendation_cascade (scores : ScoreBreakdown)
    (signals : List Signal) :
    (getRecommendation scores signals).rating =
      (if scores.overall ≥ 70 ∧ signalScore signals ≥ 2 then Rating.strongBuy
       else if scores.overall ≥ 60 ∧ signalScore signals ≥ 0 then Rating.buy
       else if 40 ≤ scores.overall ∧ scores.overall < 60 then Rating.hold
       else if scores.overall < 40 ∧ signalScore signals ≤ 0 then Rating.sell
       else if scores.overall < 30 ∧ signalScore signals < -1 then Rating.strongSell
       else Rating.hold) := by
  unfold getRecommendation
  dsimp only
  split_ifs <;> rfl

/-- C4: for every `ScoreBreakdown` and signal list, `getRecommendation`
never returns Strong Sell: its branch condition (overall < 30 ∧ ss < −1)
implies the earlier Sell branch's condition (overall < 40 ∧ ss ≤ 0), so the
Strong Sell branch is dead code under first-match evaluation. -/
theorem getRecommendation_never_strongSell (scores : ScoreBreakdown)
    (signals : List Signal) :
    (getRecommendation scores signals).rating ≠ Rating.strongSell := by
  unfold getRecommendation
  dsimp only
  split_ifs with h1 h2 h3 h4 h5
  · simp
  · simp
  · simp
  · simp
  · exfalso; omega
  · simp

/-- C5: for every fundamentals snapshot in which both `revenue_cagr_5y` and
`eps_cagr_5y` are absent, the `growth` field returned by `calculateScores`
is exactly 50, whatever the other fields hold. -/
theorem calculateScores_growth_fifty_when_no_cagr (s : StockSnapshot)
    (t : Option TechnicalIndicators)
    (h1 : s.revenue_cagr_5y = none) (h2 : s.eps_cagr_5y = none) :
    (calculateScores s t).growth = 50 := by
  have hg : getGrowthScore s = 50 := by
    simp [getGrowthScore, h1, h2]
  simp only [calculateScores, hg, jsRound_intCast]

/-- Concrete snapshot with every non-CAGR field populated, used to witness
C5. -/
def c5snap : StockSnapshot :=
  { roe := some 0.28, roic := some 0.1, gross_margin := some 0.6,
    operating_margin := some 0.3, debt_to_equity := some 0.2,
    current_ratio := some 3, free_cash_flow := some 1000,
    pe := some 8, peg := some 0.8, fcf_yield := some 0.12,
    price := some 100, market_cap := some 1000000 }

theorem calculateScores_growth_fifty_witness :
    c5snap.revenue_cagr_5y = none ∧ c5snap.eps_cagr_5y = none ∧
    (calculateScores c5snap none).growth = 50 :=
  ⟨rfl, rfl, calculateScores_growth_fifty_when_no_cagr c5snap none rfl rfl⟩

/-! ### Technical indicators (`technical.ts`)

The `TechnicalAnalyzer` holds the close prices and volumes extracted from
the price bars; each indicator below is a function of those lists. -/

/-- Consecutive close-to-close deltas `prices[i+1] - prices[i]`. -/
def priceDeltas (prices : List ℚ) : List ℚ :=
  List.zipWith (fun b a => b - a) prices.tail prices

/-- The deltas used by `calculateRSI`: the source loop reads the last
`period + 1` closes and forms their `period` consecutive changes. -/
def rsiChanges (prices : List ℚ) (period : ℕ) : List ℚ :=
  priceDeltas (prices.drop (prices.length - (period + 1)))

/-- `gains` accumulated by `calculateRSI`: positive changes. -/
def rsiGains (prices : List ℚ) (period : ℕ) : ℚ :=
  ((rsiChanges prices period).map fun c => if c > 0 then c else 0).sum

/-- `losses` accumulated by `calculateRSI`: negated non-positive changes. -/
def rsiLosses (prices : List ℚ) (period : ℕ) : ℚ :=
  ((rsiChanges prices period).map fun c => if c > 0 then 0 else -c).sum

/-- `TechnicalAnalyzer.calculateRSI` (`technical.ts` lines 66–87). -/
def calculateRSI (prices : List ℚ) (period : ℕ) : Option ℚ :=
  if prices.length < period + 1 then none
  else
    let avgGain := rsiGains prices period / period
    let avgLoss := rsiLosses prices period / period
    if avgLoss = 0 then some 100
    else some (100 - 100 / (1 + avgGain / avgLoss))

theorem rsiGains_nonneg (prices : List ℚ) (period : ℕ) :
    0 ≤ rsiGains prices period := by
  unfold rsiGains
  apply List.sum_nonneg
  intro x hx
  simp only [List.mem_map] at hx
  obtain ⟨c, -, rfl⟩ := hx
  split_ifs with hc
  · linarith
  · exact le_refl 0

theorem rsiLosses_nonneg (prices : List ℚ) (period : ℕ) :
    0 ≤ rsiLosses prices period := by
  unfold rsiLosses
  apply List.sum_nonneg
  intro x hx
  simp only [List.mem_map] at hx
  obtain ⟨c, -, rfl⟩ := hx
  split_ifs with hc
  · exact le_refl 0
  · linarith

theorem rsiLosses_eq_zero_of_nonneg {prices : List ℚ} {period : ℕ}
    (h : ∀ c ∈ rsiChanges prices period, 0 ≤ c) :
    rsiLosses prices period = 0 := by
  unfold rsiLosses
  apply List.sum_eq_zero
  intro x hx
  simp only [List.mem_map] at hx
  obtain ⟨c, hc, rfl⟩ := hx
  split_ifs with hpos
  · rfl
  · have := h c hc
    have : c = 0 := le_antisymm (not_lt.mp hpos) this
    simp [this]

/-- C6: for every price series with at least 15 bars, `calculateRSI 14`
returns a value in `[0,100]`; when the trailing window has no negative
delta the result is exactly 100, and otherwise it equals
`100 - 100/(1 + avgGain/avgLoss)` for the windowed simple averages. -/
theorem calculateRSI_spec (prices : List ℚ) (hlen : 15 ≤ prices.length) :
    ∃ r, calculateRSI prices 14 = some r ∧ 0 ≤ r ∧ r ≤ 100 ∧
      ((∀ c ∈ rsiChanges prices 14, 0 ≤ c) → r = 100) ∧
      (rsiLosses prices 14 ≠ 0 →
        r = 100 - 100 / (1 + (rsiGains prices 14 / 14) / (rsiLosses prices 14 / 14))) := by
  have hnl : ¬ prices.length < 14 + 1 := by omega
  have hG : 0 ≤ rsiGains prices 14 := rsiGains_nonneg prices 14
  have hL : 0 ≤ rsiLosses prices 14 := rsiLosses_nonneg prices 14
  unfold calculateRSI
  rw [if_neg hnl]
  dsimp only
  simp only [Nat.cast_ofNat]
  by_cases hL0 : rsiLosses prices 14 / (14 : ℚ) = 0
  · rw [if_pos hL0]
    refine ⟨100, rfl, by norm_num, by norm_num, fun _ => rfl, fun hne => absurd ?_ hne⟩
    have : rsiLosses prices 14 / (14 : ℚ) = rsiLosses prices 14 / 14 := rfl
    field_simp at hL0
    exact hL0
  · rw [if_neg hL0]
    have hLne : rsiLosses prices 14 ≠ 0 := by
      intro h0
      exact hL0 (by rw [h0]; norm_num)
    have hLpos : 0 < rsiLosses prices 14 := lt_of_le_of_ne hL (Ne.symm hLne)
    have hrs : 0 ≤ (rsiGains prices 14 / 14) / (rsiLosses prices 14 / 14) :=
      div_nonneg (by positivity) (by positivity)
    have hden : (0:ℚ) < 1 + (rsiGains prices 14 / 14) / (rsiLosses prices 14 / 14) := by
      linarith
    have hfrac_pos : 0 < 100 / (1 + (rsiGains prices 14 / 14) / (rsiLosses prices 14 / 14)) := by
      positivity
    have hfrac_le : 100 / (1 + (rsiGains prices 14 / 14) / (rsiLosses prices 14 / 14)) ≤ 100 := by
      rw [div_le_iff₀ hden]
      nlinarith
    refine ⟨_, rfl, by linarith, by linarith, ?_, fun _ => rfl⟩
    intro hall
    exact absurd (rsiLosses_eq_zero_of_nonneg hall) hLne

theorem calculateRSI_witness :
    15 ≤ (List.replicate 15 (1:ℚ)).length ∧
    (∃ r, calculateRSI (List.replicate 15 (1:ℚ)) 14 = some r ∧ 0 ≤ r ∧ r ≤ 100 ∧
      ((∀ c ∈ rsiChanges (List.replicate 15 (1:ℚ)) 14, 0 ≤ c) → r = 100) ∧
      (rsiLosses (List.replicate 15 (1:ℚ)) 14 ≠ 0 →
        r = 100 - 100 / (1 + (rsiGains (List.replicate 15 (1:ℚ)) 14 / 14) /
          (rsiLosses (List.replicate 15 (1:ℚ)) 14 / 14)))) :=
  ⟨by simp, calculateRSI_spec (List.replicate 15 (1:ℚ)) (by simp)⟩

/-- `slice(-period)` of the close prices: the last `period` entries. -/
def bollingerSlice (prices : List ℚ) (period : ℕ) : List ℚ :=
  prices.drop (prices.length - period)

/-- Middle band: simple average of the last `period` closes. -/
def bollingerSMA (prices : List ℚ) (period : ℕ) : ℚ :=
  (bollingerSlice prices period).sum / period

/-- Population variance of the last `period` closes around the middle band
(`squaredDiffs` summed and divided by `period`, not `period - 1`). -/
def bollingerVariance (prices : List ℚ) (period : ℕ) : ℚ :=
  ((bollingerSlice prices period).map fun p =>
    (p - bollingerSMA prices period) ^ 2).sum / period

/-- `TechnicalAnalyzer.calculateBollingerBands` (`technical.ts` lines
192–214): `(upper, middle, lower)`, with `Math.sqrt` modelled by
`Real.sqrt`. -/
noncomputable def calculateBollingerBands (prices : List ℚ) (period : ℕ)
    (stdDev : ℚ) : Option (ℝ × ℝ × ℝ) :=
  if prices.length < period then none
  else
    let sma : ℝ := ((bollingerSMA prices period : ℚ) : ℝ)
    let std : ℝ := Real.sqrt ((bollingerVariance prices period : ℚ) : ℝ)
    some (sma + (stdDev : ℝ) * std, sma, sma - (stdDev : ℝ) * std)

/-- C7: for every price series with at least 20 bars,
`calculateBollingerBands 20 2` returns bands with
`upper ≥ middle ≥ lower`, the middle being the 20-bar SMA. -/
theorem calculateBollingerBands_ordered (prices : List ℚ)
    (hlen : 20 ≤ prices.length) :
    ∃ u m l, calculateBollingerBands prices 20 2 = some (u, m, l) ∧
      m = ((bollingerSMA prices 20 : ℚ) : ℝ) ∧ l ≤ m ∧ m ≤ u := by
  have hnl : ¬ prices.length < 20 := by omega
  unfold calculateBollingerBands
  rw [if_neg hnl]
  dsimp only
  have hs : (0:ℝ) ≤ Real.sqrt ((bollingerVariance prices 20 : ℚ) : ℝ) :=
    Real.sqrt_nonneg _
  refine ⟨_, _, _, rfl, rfl, ?_, ?_⟩
  · have : (0:ℝ) ≤ ((2:ℚ):ℝ) * Real.sqrt ((bollingerVariance prices 20 : ℚ) : ℝ) := by
      positivity
    linarith
  · have : (0:ℝ) ≤ ((2:ℚ):ℝ) * Real.sqrt ((bollingerVariance prices 20 : ℚ) : ℝ) := by
      positivity
    linarith

theorem calculateBollingerBands_witness :
    20 ≤ (List.replicate 20 (100:ℚ)).length ∧
    (∃ u m l, calculateBollingerBands (List.replicate 20 (100:ℚ)) 20 2 = some (u, m, l) ∧
      m = ((bollingerSMA (List.replicate 20 (100:ℚ)) 20 : ℚ) : ℝ) ∧ l ≤ m ∧ m ≤ u) :=
  ⟨by simp, calculateBollingerBands_ordered (List.replicate 20 (100:ℚ)) (by simp)⟩

/-- `slice(-period)` average of the volumes, as computed by
`getVolumeRatio`. -/
def volumeSliceAvg (volumes : List ℚ) (period : ℕ) : ℚ :=
  (volumes.drop (volumes.length - period)).sum / period

/-- `TechnicalAnalyzer.getVolumeRatio` (`technical.ts` lines 257–265).
Under the length guard the list is nonempty for any `avgPeriod ≥ 1`, so
`volumes[volumes.length - 1]` is the last element (`getLastD 0`). -/
def getVolumeRatio (volumes : List ℚ) (avgPeriod : ℕ) : Option ℚ :=
  if volumes.length < avgPeriod then none
  else
    let currentVolume := volumes.getLastD 0
    let avgVolume := volumeSliceAvg volumes avgPeriod
    if avgVolume = 0 then none
    else some (currentVolume / avgVolume)

/-- C9: `getVolumeRatio 20` returns `none` exactly when the series has
fewer than 20 bars or the mean of the last 20 volumes is 0; otherwise it
returns the last volume divided by that mean, so the division is always
guarded. -/
theorem getVolumeRatio_spec (volumes : List ℚ) :
    (getVolumeRatio volumes 20 = none ↔
      volumes.length < 20 ∨ volumeSliceAvg volumes 20 = 0) ∧
    (20 ≤ volumes.length → volumeSliceAvg volumes 20 ≠ 0 →
      getVolumeRatio volumes 20 =
        some (volumes.getLastD 0 / volumeSliceAvg volumes 20)) := by
  unfold getVolumeRatio
  dsimp only
  constructor
  · split_ifs with h1 h2
    · simp [h1]
    · simp [h2]
    · simp [h1, h2]
  · intro hlen hne
    rw [if_neg (by omega), if_neg hne]

theorem getVolumeRatio_witness :
    20 ≤ (List.replicate 20 (5:ℚ)).length ∧
    volumeSliceAvg (List.replicate 20 (5:ℚ)) 20 ≠ 0 ∧
    getVolumeRatio (List.replicate 20 (5:ℚ)) 20 =
      some ((List.replicate 20 (5:ℚ)).getLastD 0 /
        volumeSliceAvg (List.replicate 20 (5:ℚ)) 20) := by
  have hne : volumeSliceAvg (List.replicate 20 (5:ℚ)) 20 ≠ 0 := by
    norm_num [volumeSliceAvg, List.sum_replicate]
  exact ⟨by simp, hne, (getVolumeRatio_spec (List.replicate 20 (5:ℚ))).2 (by simp) hne⟩

/-! ### C8: the MACD rule of `generateSignals` -/

theorem rsiSignals_filter_macd (o : Option ℚ) :
    (rsiSignals o).filter (fun sig => sig.indicator == "MACD") = [] := by
  cases o with
  | none => rfl
  | some r =>
    simp only [rsiSignals]
    split_ifs <;> rfl

theorem valuationSignals_filter_macd (o : Option ℚ) :
    (valuationSignals o).filter (fun sig => sig.indicator == "MACD") = [] := by
  cases o with
  | none => rfl
  | some pe =>
    simp only [valuationSignals]
    split_ifs <;> rfl

theorem qualitySignals_filter_macd (o : Option ℚ) :
    (qualitySignals o).filter (fun sig => sig.indicator == "MACD") = [] := by
  cases o with
  | none => rfl
  | some roe =>
    simp only [qualitySignals]
    split_ifs <;> rfl

theorem debtSignals_filter_macd (o : Option ℚ) :
    (debtSignals o).filter (fun sig => sig.indicator == "MACD") = [] := by
  cases o with
  | none => rfl
  | some dte =>
    simp only [debtSignals]
    split_ifs <;> rfl

theorem growthSignals_filter_macd (o : Option ℚ) :
    (growthSignals o).filter (fun sig => sig.indicator == "MACD") = [] := by
  cases o with
  | none => rfl
  | some rc =>
    simp only [growthSignals]
    split_ifs <;> rfl

theorem momentumSignals_filter_macd (o : Option ℚ) :
    (momentumSignals o).filter (fun sig => sig.indicator == "MACD") = [] := by
  cases o with
  | none => rfl
  | some pc =>
    simp only [momentumSignals]
    split_ifs <;> rfl

/-- C8: whenever `macd_histogram` is non-null, `generateSignals` emits
exactly one MACD signal: bullish with strength 2 when the histogram is
positive, bearish with strength 2 otherwise (a histogram of exactly 0 is
bearish). -/
theorem generateSignals_macd_unique (s : StockSnapshot)
    (t : TechnicalIndicators) (h : ℚ) (hh : t.macd_histogram = some h) :
    (generateSignals s (some t)).filter (fun sig => sig.indicator == "MACD") =
      [⟨if h > 0 then SignalType.bullish else SignalType.bearish, "MACD", 2⟩] := by
  unfold generateSignals
  simp only [List.filter_append, rsiSignals_filter_macd,
    valuationSignals_filter_macd, qualitySignals_filter_macd,
    debtSignals_filter_macd, growthSignals_filter_macd,
    momentumSignals_filter_macd, List.nil_append, List.append_nil,
    Option.some_bind]
  rw [hh]
  simp only [macdSignals]
  split_ifs <;> rfl

/-- Concrete indicator set with a zero histogram, used to witness C8's
boundary behaviour. -/
def c8tech : TechnicalIndicators := { macd_histogram := some 0 }

theorem generateSignals_macd_witness :
    c8tech.macd_histogram = some 0 ∧
    (generateSignals {} (some c8tech)).filter (fun sig => sig.indicator == "MACD") =
      [⟨if (0:ℚ) > 0 then SignalType.bullish else SignalType.bearish, "MACD", 2⟩] :=
  ⟨rfl, generateSignals_macd_unique {} c8tech 0 rfl⟩

/-! ### MACD (`technical.ts` lines 92–187)

The source's `ema` array is sparse: only indices `period-1 .. length-1` are
ever written.  We represent exactly those entries as a list, so index `i` of
the sparse array is position `i - (period - 1)` here.  `scanl` produces the
seed (the SMA of the first `period` entries) followed by one recurrence step
per remaining entry. -/

/-- `2 / (period + 1)`, the EMA smoothing multiplier. -/
def emaMultiplier (period : ℕ) : ℚ := 2 / ((period : ℚ) + 1)

/-- `TechnicalAnalyzer.calculateEMAFromArray`: EMA of an arbitrary numeric
sequence, `none` when the sequence is shorter than `period`. -/
def calculateEMAFromArray (data : List ℚ) (period : ℕ) : Option (List ℚ) :=
  if data.length < period then none
  else
    let seed := (data.take period).sum / period
    some (List.scanl
      (fun prev x => (x - prev) * emaMultiplier period + prev)
      seed (data.drop period))

/-- `TechnicalAnalyzer.calculateEMAArray` duplicates the same recurrence on
the close prices. -/
def calculateEMAArray (prices : List ℚ) (period : ℕ) : Option (List ℚ) :=
  calculateEMAFromArray prices period

/-- JavaScript `value || null` on a number-or-undefined: both `undefined`
and `0` are falsy, so a last MACD value of exactly 0 becomes `null`. -/
def orNull : Option ℚ → Option ℚ
  | some v => if v = 0 then none else some v
  | none => none

/-- Result record of `calculateMACD`. -/
structure MACDResult where
  macd : Option ℚ
  macd_signal : Option ℚ
  macd_histogram : Option ℚ
deriving Repr, DecidableEq

/-- `TechnicalAnalyzer.calculateMACD` (`technical.ts` lines 92–127).  The
MACD line runs from sparse index `slow - 1`, which is position
`slow - fast` in the fast EMA list and position 0 in the slow EMA list. -/
def calculateMACD (prices : List ℚ) (fast slow signal : ℕ) : MACDResult :=
  if prices.length < slow + signal then ⟨none, none, none⟩
  else
    match calculateEMAArray prices fast, calculateEMAArray prices slow with
    | some emaFast, some emaSlow =>
      let macdLine := List.zipWith (fun a b => a - b)
        (emaFast.drop (slow - fast)) emaSlow
      match calculateEMAFromArray macdLine signal with
      | some signalLine =>
        if signalLine.length = 0 then
          ⟨orNull macdLine.getLast?, none, none⟩
        else
          let macd := macdLine.getLastD 0
          let macdSignal := signalLine.getLastD 0
          ⟨some macd, some macdSignal, some (macd - macdSignal)⟩
      | none => ⟨orNull macdLine.getLast?, none, none⟩
    | _, _ => ⟨none, none, none⟩

theorem calculateEMAFromArray_some {data : List ℚ} {period : ℕ}
    (h : period ≤ data.length) :
    ∃ l, calculateEMAFromArray data period = some l ∧
      l.length = data.length - period + 1 := by
  unfold calculateEMAFromArray
  rw [if_neg (by omega)]
  exact ⟨_, rfl, by simp [List.length_scanl]⟩

/-- C10: with the default parameters (fast 12, slow 26, signal 9),
`calculateMACD` returns all of `macd`, `macd_signal`, `macd_histogram`
`none` exactly when the series has fewer than 35 bars, and all three
non-null otherwise; the partial case (a MACD value with null signal and
histogram) never occurs. -/
theorem calculateMACD_all_or_nothing (prices : List ℚ) :
    (prices.length < 35 → calculateMACD prices 12 26 9 = ⟨none, none, none⟩) ∧
    (35 ≤ prices.length → ∃ m sg hist, calculateMACD prices 12 26 9 =
      ⟨some m, some sg, some hist⟩) := by
  constructor
  · intro h
    unfold calculateMACD
    rw [if_pos (by omega)]
  · intro h
    obtain ⟨emaFast, hef, hefLen⟩ :=
      @calculateEMAFromArray_some prices 12 (by omega)
    obtain ⟨emaSlow, hes, hesLen⟩ :=
      @calculateEMAFromArray_some prices 26 (by omega)
    have hmlLen : (List.zipWith (fun a b => a - b)
        (emaFast.drop (26 - 12)) emaSlow).length = prices.length - 25 := by
      simp [List.length_zipWith, List.length_drop, hefLen, hesLen]
      omega
    obtain ⟨signalLine, hsl, hslLen⟩ :=
      @calculateEMAFromArray_some
        (List.zipWith (fun a b => a - b) (emaFast.drop (26 - 12)) emaSlow)
        9 (by omega)
    unfold calculateMACD
    rw [if_neg (by omega)]
    unfold calculateEMAArray
    rw [hef, hes]
    dsimp only
    rw [hsl]
    dsimp only
    rw [if_neg (by omega)]
    exact ⟨_, _, _, rfl⟩

theorem calculateMACD_witness :
    35 ≤ (List.replicate 35 (1:ℚ)).length ∧
    (∃ m sg hist, calculateMACD (List.replicate 35 (1:ℚ)) 12 26 9 =
      ⟨some m, some sg, some hist⟩) :=
  ⟨by simp, (calculateMACD_all_or_nothing (List.replicate 35 (1:ℚ))).2 (by simp)⟩
